import Mathlib

/-!
Verification of the hqx-shader sample viewer (src/sample/main.cpp) against its
natural-language specification.  The C++ program is shallowly embedded: the
GLFW key callback becomes a pure state transformer, the one-time setup code
(argument handling, texture/shader loading, registry construction) becomes a
function from an abstract environment (file system, PNG decoder, GL compiler)
to a trace of observable events plus either a final state or abnormal process
termination, and the body of the render loop becomes a pure list of GL
commands.  GL object names are modelled as naturals drawn from a fresh-name
counter, with 0 playing the role of the C NULL / "no object" name, exactly as
in the source.  The `assert(false)` inside `error_callback` (which aborts the
process with a non-zero status) and the explicit `exit(EXIT_FAILURE)` calls
are both modelled as fatal termination.
-/

namespace HqxSample

/-! ### Constants from the GLFW / OpenGL headers used by sample/main.cpp -/

def GLFW_KEY_0 : Int := 48
def GLFW_KEY_1 : Int := 49
def GLFW_KEY_2 : Int := 50
def GLFW_KEY_3 : Int := 51
def GLFW_KEY_4 : Int := 52
def GLFW_KEY_ESCAPE : Int := 256
def GLFW_PRESS : Int := 1
def GLFW_MOD_SHIFT : Int := 1
def GLFW_MOD_CONTROL : Int := 2
def GL_TEXTURE0 : Nat := 33984
def GL_TEXTURE1 : Nat := 33985
def GL_TEXTURE9 : Nat := 33993
def GL_TRIANGLES : Nat := 4

/-! ### The key callback (sample/main.cpp lines 78-90) -/

/-- The mutable window-side state touched by `key_callback`: the global
`image_scale` (current filter selection and zoom factor, initialised to 2 at
line 70), the window size, and the GLFW close flag. -/
structure WinSt where
  image_scale : Nat
  winW : Nat
  winH : Nat
  shouldClose : Bool
deriving DecidableEq, Repr

/-- Shallow embedding of `key_callback` (main.cpp lines 78-90).  Escape on
press requests close; a digit key 1..4 on press sets `image_scale` to the
digit and, unless `mods` equals exactly `GLFW_MOD_SHIFT`, calls
`glfwSetWindowSize(window, image_width * image_scale, image_height *
image_scale)`.  The second component of the result is the resize request
passed to `glfwSetWindowSize`, if any. -/
def key_callback (image_width image_height : Nat) (key action mods : Int)
    (s : WinSt) : WinSt × Option (Nat × Nat) :=
  let s1 := if key = GLFW_KEY_ESCAPE ∧ action = GLFW_PRESS then
    { s with shouldClose := true } else s
  if GLFW_KEY_1 ≤ key ∧ key ≤ GLFW_KEY_4 ∧ action = GLFW_PRESS then
    let sc : Nat := (key - GLFW_KEY_0).toNat
    let s2 := { s1 with image_scale := sc }
    if mods ≠ GLFW_MOD_SHIFT then
      ({ s2 with winW := image_width * sc, winH := image_height * sc },
       some (image_width * sc, image_height * sc))
    else (s2, none)
  else (s1, none)

/-- One incoming key event as delivered by GLFW to `key_callback`. -/
structure KeyEv where
  key : Int
  action : Int
  mods : Int
deriving DecidableEq, Repr

/-- Replays a sequence of key events through `key_callback`, keeping only the
state (window resize requests are applied into `winW`/`winH` by
`key_callback` itself). -/
def replayKeys (image_width image_height : Nat) (s : WinSt) (evs : List KeyEv) :
    WinSt :=
  evs.foldl (fun t e => (key_callback image_width image_height e.key e.action e.mods t).1) s

/-- The window state right before the render loop starts: `image_scale = 2`
(main.cpp line 70) and the window resized at line 290 to
`image_width * image_scale` by `image_height * image_scale`. -/
def initialWinSt (image_width image_height : Nat) : WinSt :=
  ⟨2, image_width * 2, image_height * 2, false⟩

/-! ### Shader stages and observable startup events -/

inductive Stage where
  | vertex
  | fragment
deriving DecidableEq, Repr

/-- The per-stage preamble prepended by `compile_shader` (main.cpp lines
139-145): a fixed minimum-version directive plus a stage define. -/
def stageDefine : Stage → String
  | .vertex => "#version 130\n#define VERTEX\n"
  | .fragment => "#version 130\n#define FRAGMENT\n"

/-- Observable events of the one-time setup code.  `printErr msg` is the
line written to stderr by `error_callback` (main.cpp lines 72-76);
`printOut` is `read_file`'s failure message on stdout; the remaining events
record window, decode, GL object and uniform activity. -/
inductive Ev where
  | printUsage
  | createWindow (w h : Nat) (title : String)
  | setWindowSize (w h : Nat)
  | printErr (msg : String)
  | printOut (msg : String)
  | decodePng (path : String)
  | genTexture (name : Nat)
  | compiled (stage : Stage) (src : String) (name : Nat)
  | linked (prog vs fs : Nat)
  | useProgram (p : Nat)
  | uniformMat4 (p : Nat) (name : String)
  | uniform1i (p : Nat) (name : String) (v : Nat)
  | uniform2f (p : Nat) (name : String) (x y : Nat)
deriving DecidableEq, Repr

/-- The external collaborators of the program: the file system (`files`),
the PNG decoder (`png`, returning an error code and diagnostic text, or the
decoded dimensions), the GL shader compiler and linker, and whether GLFW
startup and window creation succeed. -/
structure Env where
  files : String → Option String
  png : String → Except (Nat × String) (Nat × Nat)
  compileOk : Stage → String → Bool
  compileLog : Stage → String → String
  linkOk : String → String → Bool
  linkLog : String → String → String
  glfwInitOk : Bool
  createWindowOk : Bool

/-- GL-side state threaded through setup: the fresh-name counter (GL object
names start at 1; 0 is the NULL name), the active texture unit, the
per-unit texture bindings, the source string stored in each shader object
by `glShaderSource`, and the sources of the shaders attached to each linked
program. -/
structure St where
  counter : Nat
  active : Nat
  bound : List (Nat × Nat)
  shaderSrc : List (Nat × String)
  progSrc : List (Nat × (String × String))
deriving DecidableEq, Repr

def St.init : St := ⟨1, GL_TEXTURE0, [], [], []⟩

/-- Updates an association list (used for texture-unit bindings). -/
def setA (l : List (Nat × Nat)) (k v : Nat) : List (Nat × Nat) :=
  match l with
  | [] => [(k, v)]
  | (k0, v0) :: rest => if k0 = k then (k, v) :: rest else (k0, v0) :: setA rest k v

/-- Looks up an association list. -/
def getA {β : Type} (l : List (Nat × β)) (k : Nat) : Option β :=
  match l with
  | [] => none
  | (k0, v0) :: rest => if k0 = k then some v0 else getA rest k

/-- The result of a piece of setup code: either a new GL state together with
the events it emitted and a value, or fatal process termination (non-zero
exit status, via `exit(EXIT_FAILURE)` or the `assert(false)` abort inside
`error_callback`) with the events emitted up to that point. -/
inductive Run (α : Type) where
  | ok (st : St) (evs : List Ev) (val : α)
  | fatal (evs : List Ev)

def Run.trace {α : Type} : Run α → List Ev
  | .ok _ evs _ => evs
  | .fatal evs => evs

def Run.isFatal {α : Type} : Run α → Bool
  | .ok _ _ _ => false
  | .fatal _ => true

/-- Sequencing of setup steps: a fatal step terminates the process, keeping
the events emitted so far. -/
def bindRun {α β : Type} (r : Run α) (f : St → α → Run β) : Run β :=
  match r with
  | .fatal evs => .fatal evs
  | .ok st evs v =>
      match f st v with
      | .fatal evs2 => .fatal (evs ++ evs2)
      | .ok st2 evs2 w => .ok st2 (evs ++ evs2) w

/-- Prepends already-emitted events to a setup step. -/
def emitThen {α : Type} (evs : List Ev) (r : Run α) : Run α :=
  match r with
  | .fatal evs2 => .fatal (evs ++ evs2)
  | .ok st evs2 v => .ok st (evs ++ evs2) v

/-! ### The embedded program text and asset paths (main.cpp lines 38-66) -/

def vertex_shader_text : String :=
  "attribute vec4 VertexCoord;\nattribute vec4 TexCoord;\nvarying vec2 tex;\nvoid main()\n\x7b\n    gl_Position = VertexCoord;\n    tex = TexCoord.xy;\n\x7d\n"

def fragment_shader_text : String :=
  "uniform sampler2D Texture;\nvarying vec2 tex;\nvoid main()\n\x7b\n    gl_FragColor = texture2D(Texture, tex);\n\x7d\n"

/-- Relative shader paths (the `_` path-separator token of main.cpp expands
to "/" on non-Windows platforms). -/
def shader_files : List String :=
  ["/glsl/hq2x.glsl", "/glsl/hq3x.glsl", "/glsl/hq4x.glsl"]

def lut_files : List String :=
  ["/resources/hq2x.png", "/resources/hq3x.png", "/resources/hq4x.png"]

/-- The bundled default image, appended to the asset directory when no
second positional argument is given (main.cpp line 211). -/
def sample_image : String := "/sample/pixelart0.png"

/-- The static index list of the quad: two triangles (main.cpp line 68). -/
def indices : List Nat := [0, 1, 2, 0, 2, 3]

/-! ### The loading helpers (main.cpp lines 92-190) -/

/-- Shallow embedding of `read_file` (main.cpp lines 92-106): on open
failure prints to stdout and exits with failure status. -/
def read_file (env : Env) (st : St) (filename : String) : Run String :=
  match env.files filename with
  | none => .fatal [.printOut ("Failed to open " ++ filename)]
  | some buf => .ok st [] buf

/-- Shallow embedding of `load_texture` (main.cpp lines 108-132): decodes a
PNG; on a decoder error calls `error_callback(error, lodepng_error_text
(error))` (which prints "Error: " followed by the decoder diagnostic and
aborts).  On success generates a texture name, binds it at the loading-stage
unit `GL_TEXTURE9`, uploads the pixels, and returns the name and
dimensions. -/
def load_texture (env : Env) (st : St) (filename : String) :
    Run (Nat × Nat × Nat) :=
  match env.png filename with
  | .error (_, text) =>
      .fatal [.decodePng filename, .printErr ("Error: " ++ text)]
  | .ok (w, h) =>
      let texture := st.counter
      let st1 : St := { st with
        counter := st.counter + 1,
        active := GL_TEXTURE9,
        bound := setA st.bound GL_TEXTURE9 texture }
      .ok st1 [.decodePng filename, .genTexture texture] (texture, w, h)

/-- Shallow embedding of `compile_shader` (main.cpp lines 134-162): prepends
the stage define to the source, creates a shader object holding the
concatenated source, compiles, and on failure fetches the full info log and
calls `error_callback(GL_INVALID_OPERATION, error_log)`, which prints
"Error: " followed by the log and aborts the process. -/
def compile_shader (env : Env) (st : St) (stage : Stage) (source : String) :
    Run Nat :=
  let full := stageDefine stage ++ source
  let shader := st.counter
  let st1 : St := { st with
    counter := st.counter + 1,
    shaderSrc := st.shaderSrc ++ [(shader, full)] }
  if env.compileOk stage full then
    .ok st1 [.compiled stage full shader] shader
  else
    .fatal [.compiled stage full shader,
            .printErr ("Error: " ++ env.compileLog stage full)]

/-- Shallow embedding of `link_program` (main.cpp lines 164-190): creates a
program, attaches both shaders, links, and on failure reports the link log
through `error_callback` (fatal). -/
def link_program (env : Env) (st : St) (vertex_shader fragment_shader : Nat) :
    Run Nat :=
  let program := st.counter
  let vsrc := (getA st.shaderSrc vertex_shader).getD ""
  let fsrc := (getA st.shaderSrc fragment_shader).getD ""
  if env.linkOk vsrc fsrc then
    .ok { st with
          counter := st.counter + 1,
          progSrc := st.progSrc ++ [(program, (vsrc, fsrc))] }
       [.linked program vertex_shader fragment_shader] program
  else
    .fatal [.linked program vertex_shader fragment_shader,
            .printErr ("Error: " ++ env.linkLog vsrc fsrc)]

/-! ### Registry construction and the rest of one-time setup
(main.cpp lines 192-290) -/

/-- One iteration of the filter-construction loop (main.cpp lines 260-288):
read the shader file, compile it as both stages, link, set the per-program
uniforms (`MVPMatrix`, sampler unit 0 for `Texture`, sampler unit 1 for
`LUT`, and `TextureSize` from the source image dimensions), then load the
lookup texture.  Returns the program and lookup-texture names pushed onto
`programs` and `lut_textures`. -/
def buildSlot (env : Env) (st : St) (base : String) (i : Nat)
    (image_width image_height : Nat) : Run (Nat × Nat) :=
  bindRun (read_file env st (base ++ shader_files.getD i "")) fun st1 shader =>
  bindRun (compile_shader env st1 .vertex shader) fun st2 vertex_shader =>
  bindRun (compile_shader env st2 .fragment shader) fun st3 fragment_shader =>
  bindRun (link_program env st3 vertex_shader fragment_shader) fun st4 program =>
  emitThen [.useProgram program, .uniformMat4 program "MVPMatrix",
            .uniform1i program "Texture" 0, .uniform1i program "LUT" 1,
            .uniform2f program "TextureSize" image_width image_height] <|
  bindRun (load_texture env st4 (base ++ lut_files.getD i "")) fun st5 ldh =>
  .ok st5 [] (program, ldh.1)

/-- The filter registry and source-image data available when the render loop
starts: the paired `programs` / `lut_textures` sequences (index 0 holds the
NULL name pushed at main.cpp lines 242-243), the source image dimensions and
texture, and the initial `image_scale`. -/
structure Boot where
  programs : List Nat
  lut_textures : List Nat
  image_width : Nat
  image_height : Nat
  sourceTexture : Nat
  image_scale : Nat
deriving DecidableEq, Repr

/-- Shallow embedding of `main` from the argument check up to the
`glfwSetWindowSize` call just before the render loop (main.cpp lines
200-290): argument handling, GLFW setup, window creation (640 x 480, shown
immediately), source-image load and bind to unit `GL_TEXTURE0`, vertex
buffer creation, the NULL slot, the passthrough program, the three hqx
filter slots, and the initial resize to `image_width * image_scale` by
`image_height * image_scale` with `image_scale = 2`. -/
def startup (env : Env) (args : List String) : Run Boot :=
  if args.length < 2 then .fatal [.printUsage]
  else
    let base_path := args.getD 1 ""
    let image_path := if args.length > 2 then args.getD 2 ""
      else base_path ++ sample_image
    if env.glfwInitOk = false then .fatal []
    else if env.createWindowOk = false then .fatal []
    else
      emitThen [.createWindow 640 480 "HQx Sample"] <|
      bindRun (load_texture env St.init image_path) fun st1 twh =>
      let texture := twh.1
      let image_width := twh.2.1
      let image_height := twh.2.2
      let st2 : St := { st1 with
        active := GL_TEXTURE0,
        bound := setA st1.bound GL_TEXTURE0 texture }
      let st3 : St := { st2 with counter := st2.counter + 1 }
      bindRun (compile_shader env st3 .vertex vertex_shader_text) fun st4 vertex_shader =>
      bindRun (compile_shader env st4 .fragment fragment_shader_text) fun st5 fragment_shader =>
      bindRun (link_program env st5 vertex_shader fragment_shader) fun st6 p1 =>
      emitThen [.uniform1i p1 "Texture" 0] <|
      bindRun (buildSlot env st6 base_path 0 image_width image_height) fun st7 slotA =>
      bindRun (buildSlot env st7 base_path 1 image_width image_height) fun st8 slotB =>
      bindRun (buildSlot env st8 base_path 2 image_width image_height) fun st9 slotC =>
      emitThen [.setWindowSize (image_width * 2) (image_height * 2)] <|
      .ok st9 []
        ⟨[0, p1, slotA.1, slotB.1, slotC.1], [0, 0, slotA.2, slotB.2, slotC.2],
         image_width, image_height, texture, 2⟩

def Run.bootOf : Run Boot → Boot
  | .ok _ _ b => b
  | .fatal _ => ⟨[], [], 0, 0, 0, 0⟩

def Run.stOf : Run Boot → St
  | .ok st _ _ => st
  | .fatal _ => St.init

/-! ### The render loop body (main.cpp lines 291-307) -/

/-- GL commands issued each frame. -/
inductive Cmd where
  | viewport (x y w h : Nat)
  | clear
  | useProgram (p : Nat)
  | activeTexture (unit : Nat)
  | bindTexture (t : Nat)
  | drawElements (mode count : Nat)
  | swapBuffers
  | pollEvents
deriving DecidableEq, Repr

/-- One iteration of the render loop (main.cpp lines 291-307): query the
framebuffer size, set the viewport to it, clear the color buffer, use
`programs[image_scale]`, bind `lut_textures[image_scale]` at unit
`GL_TEXTURE1`, draw the quad's six indices, swap, poll. -/
def renderFrame (fbWidth fbHeight : Nat) (image_scale : Nat)
    (programs lut_textures : List Nat) : List Cmd :=
  [.viewport 0 0 fbWidth fbHeight, .clear,
   .useProgram (programs.getD image_scale 0),
   .activeTexture GL_TEXTURE1,
   .bindTexture (lut_textures.getD image_scale 0),
   .drawElements GL_TRIANGLES indices.length,
   .swapBuffers, .pollEvents]

/-- Effect of one frame command on the texture-binding state
(active unit, per-unit bindings). -/
def applyCmd (s : Nat × List (Nat × Nat)) (c : Cmd) : Nat × List (Nat × Nat) :=
  match c with
  | .activeTexture u => (u, s.2)
  | .bindTexture t => (s.1, setA s.2 s.1 t)
  | _ => s

def runCmds (s : Nat × List (Nat × Nat)) (cs : List Cmd) :
    Nat × List (Nat × Nat) :=
  cs.foldl applyCmd s

def Cmd.isDraw : Cmd → Bool
  | .drawElements _ _ => true
  | _ => false

def Ev.isTexSizeSet : Ev → Bool
  | .uniform2f _ "TextureSize" _ _ => true
  | _ => false

def Ev.isSamplerSetOf (p : Nat) : Ev → Bool
  | .uniform1i q _ _ => q == p
  | _ => false

def Ev.isPrintErr : Ev → Bool
  | .printErr _ => true
  | _ => false

/-- The paths handed to the PNG decoder, in order of decode attempts. -/
def decodedPaths (evs : List Ev) : List String :=
  evs.filterMap fun e => match e with
    | .decodePng p => some p
    | _ => none

/-! ### Hypotheses describing the external environment -/

/-- A well-stocked asset directory: GLFW and the window come up, the source
image decodes with dimensions `W` by `H`, the three shader files exist with
the given contents, the three lookup textures decode, and the GL compiler
and linker accept everything.  This is the premise of the spec's
"valid asset directory" scenarios. -/
structure GoodBoot (env : Env) (base img : String) (W H : Nat)
    (s2 s3 s4 : String) (w2 h2 w3 h3 w4 h4 : Nat) : Prop where
  init_ok : env.glfwInitOk = true
  window_ok : env.createWindowOk = true
  image_ok : env.png img = .ok (W, H)
  shader2 : env.files (base ++ "/glsl/hq2x.glsl") = some s2
  shader3 : env.files (base ++ "/glsl/hq3x.glsl") = some s3
  shader4 : env.files (base ++ "/glsl/hq4x.glsl") = some s4
  lut2 : env.png (base ++ "/resources/hq2x.png") = .ok (w2, h2)
  lut3 : env.png (base ++ "/resources/hq3x.png") = .ok (w3, h3)
  lut4 : env.png (base ++ "/resources/hq4x.png") = .ok (w4, h4)
  compile_all : ∀ stage src, env.compileOk stage src = true
  link_all : ∀ a b, env.linkOk a b = true

/-- Same as `GoodBoot` except that the lookup texture for scale factor 4 is
missing: its decode fails with code `ecode` and diagnostic `etext`. -/
structure Lut4Missing (env : Env) (base img : String) (W H : Nat)
    (s2 s3 s4 : String) (w2 h2 w3 h3 : Nat) (ecode : Nat) (etext : String) :
    Prop where
  init_ok : env.glfwInitOk = true
  window_ok : env.createWindowOk = true
  image_ok : env.png img = .ok (W, H)
  shader2 : env.files (base ++ "/glsl/hq2x.glsl") = some s2
  shader3 : env.files (base ++ "/glsl/hq3x.glsl") = some s3
  shader4 : env.files (base ++ "/glsl/hq4x.glsl") = some s4
  lut2 : env.png (base ++ "/resources/hq2x.png") = .ok (w2, h2)
  lut3 : env.png (base ++ "/resources/hq3x.png") = .ok (w3, h3)
  lut4 : env.png (base ++ "/resources/hq4x.png") = .error (ecode, etext)
  compile_all : ∀ stage src, env.compileOk stage src = true
  link_all : ∀ a b, env.linkOk a b = true

/-! ### The computed outcome of a successful setup.
GL names are deterministic: the source image texture is 1, the vertex
buffer 2, the passthrough shaders 3 and 4 and their program 5, and each
filter slot consumes four names (two shaders, a program, a lookup
texture): 6-9, 10-13, 14-17. -/

/-- The event trace of a fully successful setup run. -/
def goodTrace (base img : String) (W H : Nat) (s2 s3 s4 : String) : List Ev :=
  [.createWindow 640 480 "HQx Sample",
   .decodePng img, .genTexture 1,
   .compiled .vertex (stageDefine .vertex ++ vertex_shader_text) 3,
   .compiled .fragment (stageDefine .fragment ++ fragment_shader_text) 4,
   .linked 5 3 4,
   .uniform1i 5 "Texture" 0,
   .compiled .vertex (stageDefine .vertex ++ s2) 6,
   .compiled .fragment (stageDefine .fragment ++ s2) 7,
   .linked 8 6 7,
   .useProgram 8, .uniformMat4 8 "MVPMatrix",
   .uniform1i 8 "Texture" 0, .uniform1i 8 "LUT" 1,
   .uniform2f 8 "TextureSize" W H,
   .decodePng (base ++ "/resources/hq2x.png"), .genTexture 9,
   .compiled .vertex (stageDefine .vertex ++ s3) 10,
   .compiled .fragment (stageDefine .fragment ++ s3) 11,
   .linked 12 10 11,
   .useProgram 12, .uniformMat4 12 "MVPMatrix",
   .uniform1i 12 "Texture" 0, .uniform1i 12 "LUT" 1,
   .uniform2f 12 "TextureSize" W H,
   .decodePng (base ++ "/resources/hq3x.png"), .genTexture 13,
   .compiled .vertex (stageDefine .vertex ++ s4) 14,
   .compiled .fragment (stageDefine .fragment ++ s4) 15,
   .linked 16 14 15,
   .useProgram 16, .uniformMat4 16 "MVPMatrix",
   .uniform1i 16 "Texture" 0, .uniform1i 16 "LUT" 1,
   .uniform2f 16 "TextureSize" W H,
   .decodePng (base ++ "/resources/hq4x.png"), .genTexture 17,
   .setWindowSize (W * 2) (H * 2)]

/-- The GL state after a fully successful setup run. -/
def goodSt (s2 s3 s4 : String) : St :=
  { counter := 18, active := GL_TEXTURE9,
    bound := [(GL_TEXTURE9, 17), (GL_TEXTURE0, 1)],
    shaderSrc :=
      [(3, stageDefine .vertex ++ vertex_shader_text),
       (4, stageDefine .fragment ++ fragment_shader_text),
       (6, stageDefine .vertex ++ s2), (7, stageDefine .fragment ++ s2),
       (10, stageDefine .vertex ++ s3), (11, stageDefine .fragment ++ s3),
       (14, stageDefine .vertex ++ s4), (15, stageDefine .fragment ++ s4)],
    progSrc :=
      [(5, (stageDefine .vertex ++ vertex_shader_text,
            stageDefine .fragment ++ fragment_shader_text)),
       (8, (stageDefine .vertex ++ s2, stageDefine .fragment ++ s2)),
       (12, (stageDefine .vertex ++ s3, stageDefine .fragment ++ s3)),
       (16, (stageDefine .vertex ++ s4, stageDefine .fragment ++ s4))] }

/-- The registry data after a fully successful setup run: the NULL slot at
index 0, the passthrough program 5 at index 1 with no lookup texture, and
the three filter slots (8,9), (12,13), (16,17) at indices 2-4. -/
def goodBoot (W H : Nat) : Boot :=
  ⟨[0, 5, 8, 12, 16], [0, 0, 9, 13, 17], W, H, 1, 2⟩

/-- The event trace of a run in which everything succeeds until the decode
of the scale-4 lookup texture fails with diagnostic `etext`. -/
def lut4FailTrace (base img : String) (W H : Nat) (s2 s3 s4 : String)
    (etext : String) : List Ev :=
  [.createWindow 640 480 "HQx Sample",
   .decodePng img, .genTexture 1,
   .compiled .vertex (stageDefine .vertex ++ vertex_shader_text) 3,
   .compiled .fragment (stageDefine .fragment ++ fragment_shader_text) 4,
   .linked 5 3 4,
   .uniform1i 5 "Texture" 0,
   .compiled .vertex (stageDefine .vertex ++ s2) 6,
   .compiled .fragment (stageDefine .fragment ++ s2) 7,
   .linked 8 6 7,
   .useProgram 8, .uniformMat4 8 "MVPMatrix",
   .uniform1i 8 "Texture" 0, .uniform1i 8 "LUT" 1,
   .uniform2f 8 "TextureSize" W H,
   .decodePng (base ++ "/resources/hq2x.png"), .genTexture 9,
   .compiled .vertex (stageDefine .vertex ++ s3) 10,
   .compiled .fragment (stageDefine .fragment ++ s3) 11,
   .linked 12 10 11,
   .useProgram 12, .uniformMat4 12 "MVPMatrix",
   .uniform1i 12 "Texture" 0, .uniform1i 12 "LUT" 1,
   .uniform2f 12 "TextureSize" W H,
   .decodePng (base ++ "/resources/hq3x.png"), .genTexture 13,
   .compiled .vertex (stageDefine .vertex ++ s4) 14,
   .compiled .fragment (stageDefine .fragment ++ s4) 15,
   .linked 16 14 15,
   .useProgram 16, .uniformMat4 16 "MVPMatrix",
   .uniform1i 16 "Texture" 0, .uniform1i 16 "LUT" 1,
   .uniform2f 16 "TextureSize" W H,
   .decodePng (base ++ "/resources/hq4x.png"),
   .printErr ("Error: " ++ etext)]

/-! ### Concrete environments for witnesses and counterexamples -/

/-- A concrete fully-stocked asset directory under base path "/a", with a
16 by 16 source image. -/
def okEnv : Env where
  files := fun p =>
    if p = "/a/glsl/hq2x.glsl" then some "S2"
    else if p = "/a/glsl/hq3x.glsl" then some "S3"
    else if p = "/a/glsl/hq4x.glsl" then some "S4"
    else none
  png := fun p =>
    if p = "/a/img.png" then .ok (16, 16)
    else if p = "/a/sample/pixelart0.png" then .ok (16, 16)
    else if p = "/a/resources/hq2x.png" then .ok (32, 32)
    else if p = "/a/resources/hq3x.png" then .ok (48, 48)
    else if p = "/a/resources/hq4x.png" then .ok (64, 64)
    else .error (78, "failed to open file for reading")
  compileOk := fun _ _ => true
  compileLog := fun _ _ => ""
  linkOk := fun _ _ => true
  linkLog := fun _ _ => ""
  glfwInitOk := true
  createWindowOk := true

/-- Like `okEnv` but the scale-4 lookup texture file is absent, so its
decode fails with lodepng error 78 ("failed to open file for reading"). -/
def lut4Env : Env where
  files := fun p =>
    if p = "/a/glsl/hq2x.glsl" then some "S2"
    else if p = "/a/glsl/hq3x.glsl" then some "S3"
    else if p = "/a/glsl/hq4x.glsl" then some "S4"
    else none
  png := fun p =>
    if p = "/a/img.png" then .ok (16, 16)
    else if p = "/a/resources/hq2x.png" then .ok (32, 32)
    else if p = "/a/resources/hq3x.png" then .ok (48, 48)
    else .error (78, "failed to open file for reading")
  compileOk := fun _ _ => true
  compileLog := fun _ _ => ""
  linkOk := fun _ _ => true
  linkLog := fun _ _ => ""
  glfwInitOk := true
  createWindowOk := true

/-- An environment whose GL compiler rejects every shader with a fixed
diagnostic log, for exercising the compile-failure path. -/
def badCompileEnv : Env where
  files := fun _ => none
  png := fun _ => .error (78, "failed to open file for reading")
  compileOk := fun _ _ => false
  compileLog := fun _ _ => "0:1(1): error: syntax error, unexpected NEW_IDENTIFIER"
  linkOk := fun _ _ => false
  linkLog := fun _ _ => ""
  glfwInitOk := true
  createWindowOk := true

/-! ### Sequencing lemmas -/

@[simp]
theorem bindRun_ok {α β : Type} (st : St) (evs : List Ev) (v : α)
    (f : St → α → Run β) :
    bindRun (Run.ok st evs v) f = emitThen evs (f st v) := by
  cases h : f st v <;> simp [bindRun, emitThen, h]

@[simp]
theorem bindRun_fatal {α β : Type} (evs : List Ev) (f : St → α → Run β) :
    bindRun (Run.fatal evs) f = Run.fatal evs := rfl

@[simp]
theorem emitThen_ok {α : Type} (evs : List Ev) (st : St) (evs2 : List Ev)
    (v : α) : emitThen evs (Run.ok st evs2 v) = Run.ok st (evs ++ evs2) v := rfl

@[simp]
theorem emitThen_fatal {α : Type} (evs evs2 : List Ev) :
    emitThen (α := α) evs (Run.fatal evs2) = Run.fatal (evs ++ evs2) := rfl

@[simp]
theorem trace_ok {α : Type} (st : St) (evs : List Ev) (v : α) :
    (Run.ok st evs v).trace = evs := rfl

@[simp]
theorem trace_fatal {α : Type} (evs : List Ev) :
    (Run.fatal evs : Run α).trace = evs := rfl

@[simp]
theorem emitThen_trace {α : Type} (evs : List Ev) (r : Run α) :
    (emitThen evs r).trace = evs ++ r.trace := by
  cases r <;> rfl

/-! ### Evaluation of the setup code under the environment hypotheses -/

/-- With a fully-stocked asset directory, setup runs to completion and its
state, trace and registry are the deterministic values computed above. -/
theorem startup_good (env : Env) (a0 base img : String) (W H : Nat)
    (s2 s3 s4 : String) (w2 h2 w3 h3 w4 h4 : Nat)
    (h : GoodBoot env base img W H s2 s3 s4 w2 h2 w3 h3 w4 h4) :
    startup env [a0, base, img] =
      Run.ok (goodSt s2 s3 s4) (goodTrace base img W H s2 s3 s4)
        (goodBoot W H) := by
  obtain ⟨hI, hWn, hImg, hs2, hs3, hs4, hl2, hl3, hl4, hc, hlk⟩ := h
  simp [startup, buildSlot, load_texture, compile_shader, link_program,
        read_file, hI, hWn, hImg, hs2, hs3, hs4, hl2, hl3, hl4, hc, hlk,
        goodSt, goodTrace, goodBoot, St.init, setA, getA, shader_files,
        lut_files, sample_image, GL_TEXTURE0, GL_TEXTURE9]

/-- With the scale-4 lookup texture missing, setup aborts after building
everything else; the window-creation event is the very first event of the
trace and the decoder diagnostic is the last. -/
theorem startup_lut4 (env : Env) (a0 base img : String) (W H : Nat)
    (s2 s3 s4 : String) (w2 h2 w3 h3 : Nat) (ecode : Nat) (etext : String)
    (h : Lut4Missing env base img W H s2 s3 s4 w2 h2 w3 h3 ecode etext) :
    startup env [a0, base, img] =
      Run.fatal (lut4FailTrace base img W H s2 s3 s4 etext) := by
  obtain ⟨hI, hWn, hImg, hs2, hs3, hs4, hl2, hl3, hl4, hc, hlk⟩ := h
  simp [startup, buildSlot, load_texture, compile_shader, link_program,
        read_file, hI, hWn, hImg, hs2, hs3, hs4, hl2, hl3, hl4, hc, hlk,
        lut4FailTrace, St.init, setA, getA, shader_files,
        lut_files, sample_image, GL_TEXTURE0, GL_TEXTURE9]

/-- The concrete environment `okEnv` satisfies the valid-asset-directory
hypotheses. -/
theorem okEnv_good :
    GoodBoot okEnv "/a" "/a/img.png" 16 16 "S2" "S3" "S4" 32 32 48 48 64 64 :=
  ⟨rfl, rfl, rfl, rfl, rfl, rfl, rfl, rfl, rfl, fun _ _ => rfl, fun _ _ => rfl⟩

/-- The concrete environment `lut4Env` satisfies the missing-scale-4-lookup
hypotheses. -/
theorem lut4Env_missing :
    Lut4Missing lut4Env "/a" "/a/img.png" 16 16 "S2" "S3" "S4" 32 32 48 48 78
      "failed to open file for reading" :=
  ⟨rfl, rfl, rfl, rfl, rfl, rfl, rfl, rfl, rfl, fun _ _ => rfl, fun _ _ => rfl⟩

/-! ### Key-callback lemmas -/

/-- One key event keeps `image_scale` inside 1..4. -/
theorem key_callback_scale_bound (iw ih : Nat) (key action mods : Int)
    (s : WinSt) (h1 : 1 ≤ s.image_scale) (h2 : s.image_scale ≤ 4) :
    1 ≤ ((key_callback iw ih key action mods s).1).image_scale ∧
    ((key_callback iw ih key action mods s).1).image_scale ≤ 4 := by
  simp only [key_callback, GLFW_KEY_0, GLFW_KEY_1, GLFW_KEY_4, GLFW_KEY_ESCAPE,
    GLFW_PRESS, GLFW_MOD_SHIFT]
  split_ifs with hesc hdig hmods <;> simp_all <;> omega

/-- Replaying any sequence of key events keeps `image_scale` inside 1..4. -/
theorem replayKeys_scale_bound (iw ih : Nat) (evs : List KeyEv) (s : WinSt)
    (h1 : 1 ≤ s.image_scale) (h2 : s.image_scale ≤ 4) :
    1 ≤ (replayKeys iw ih s evs).image_scale ∧
    (replayKeys iw ih s evs).image_scale ≤ 4 := by
  induction evs generalizing s with
  | nil => exact ⟨h1, h2⟩
  | cons e rest ih2 =>
      have hstep := key_callback_scale_bound iw ih e.key e.action e.mods s h1 h2
      exact ih2 _ hstep.1 hstep.2

/-! ### The claims -/

/-- C1 (amended): after a setup run over a valid asset directory the
`programs` / `lut_textures` sequences have exactly FIVE entries, not four:
index 0 is an unused placeholder holding the NULL name in both sequences
(pushed at main.cpp lines 242-243 so that the scale factor can be used
directly as the index), index 1 holds the fixed pass-through program (built
from `vertex_shader_text` / `fragment_shader_text`) and no lookup texture,
and indices 2..4 each hold exactly one program and one lookup texture. -/
theorem C1_registry_structure (env : Env) (a0 base img : String) (W H : Nat)
    (s2 s3 s4 : String) (w2 h2 w3 h3 w4 h4 : Nat)
    (h : GoodBoot env base img W H s2 s3 s4 w2 h2 w3 h3 w4 h4) :
    (startup env [a0, base, img]).bootOf.programs.length = 5 ∧
    (startup env [a0, base, img]).bootOf.lut_textures.length = 5 ∧
    (startup env [a0, base, img]).bootOf.programs.getD 0 0 = 0 ∧
    (startup env [a0, base, img]).bootOf.lut_textures.getD 0 0 = 0 ∧
    (startup env [a0, base, img]).bootOf.programs.getD 1 0 ≠ 0 ∧
    (startup env [a0, base, img]).bootOf.lut_textures.getD 1 0 = 0 ∧
    getA (startup env [a0, base, img]).stOf.progSrc
        ((startup env [a0, base, img]).bootOf.programs.getD 1 0) =
      some (stageDefine .vertex ++ vertex_shader_text,
            stageDefine .fragment ++ fragment_shader_text) ∧
    (startup env [a0, base, img]).bootOf.programs.getD 2 0 ≠ 0 ∧
    (startup env [a0, base, img]).bootOf.lut_textures.getD 2 0 ≠ 0 ∧
    (startup env [a0, base, img]).bootOf.programs.getD 3 0 ≠ 0 ∧
    (startup env [a0, base, img]).bootOf.lut_textures.getD 3 0 ≠ 0 ∧
    (startup env [a0, base, img]).bootOf.programs.getD 4 0 ≠ 0 ∧
    (startup env [a0, base, img]).bootOf.lut_textures.getD 4 0 ≠ 0 := by
  rw [startup_good env a0 base img W H s2 s3 s4 w2 h2 w3 h3 w4 h4 h]
  simp only [Run.bootOf, Run.stOf, goodBoot, goodSt]
  refine ⟨rfl, rfl, rfl, rfl, by decide, rfl, rfl, by decide, by decide,
    by decide, by decide, by decide, by decide⟩

/-- Witness for C1: the registry structure at the concrete environment
`okEnv`. -/
theorem C1_registry_structure_witness :
    (startup okEnv ["app", "/a", "/a/img.png"]).bootOf.programs.length = 5 ∧
    (startup okEnv ["app", "/a", "/a/img.png"]).bootOf.lut_textures.length = 5 ∧
    (startup okEnv ["app", "/a", "/a/img.png"]).bootOf.programs.getD 0 0 = 0 ∧
    (startup okEnv ["app", "/a", "/a/img.png"]).bootOf.lut_textures.getD 0 0 = 0 ∧
    (startup okEnv ["app", "/a", "/a/img.png"]).bootOf.programs.getD 1 0 ≠ 0 ∧
    (startup okEnv ["app", "/a", "/a/img.png"]).bootOf.lut_textures.getD 1 0 = 0 ∧
    getA (startup okEnv ["app", "/a", "/a/img.png"]).stOf.progSrc
        ((startup okEnv ["app", "/a", "/a/img.png"]).bootOf.programs.getD 1 0) =
      some (stageDefine .vertex ++ vertex_shader_text,
            stageDefine .fragment ++ fragment_shader_text) ∧
    (startup okEnv ["app", "/a", "/a/img.png"]).bootOf.programs.getD 2 0 ≠ 0 ∧
    (startup okEnv ["app", "/a", "/a/img.png"]).bootOf.lut_textures.getD 2 0 ≠ 0 ∧
    (startup okEnv ["app", "/a", "/a/img.png"]).bootOf.programs.getD 3 0 ≠ 0 ∧
    (startup okEnv ["app", "/a", "/a/img.png"]).bootOf.lut_textures.getD 3 0 ≠ 0 ∧
    (startup okEnv ["app", "/a", "/a/img.png"]).bootOf.programs.getD 4 0 ≠ 0 ∧
    (startup okEnv ["app", "/a", "/a/img.png"]).bootOf.lut_textures.getD 4 0 ≠ 0 :=
  C1_registry_structure okEnv "app" "/a" "/a/img.png" 16 16 "S2" "S3" "S4"
    32 32 48 48 64 64 okEnv_good

/-- C1 counterexample: at a concrete valid asset directory the registry
sequences have five entries, so the claimed "exactly 4 entries" is false
(the extra entry is the NULL placeholder at index 0; the pass-through
program sits at index 1, not 0). -/
theorem C1_counterexample :
    (startup okEnv ["app", "/a", "/a/img.png"]).bootOf.programs.length = 5 ∧
    ¬ (startup okEnv ["app", "/a", "/a/img.png"]).bootOf.programs.length = 4 := by
  rw [startup_good okEnv "app" "/a" "/a/img.png" 16 16 "S2" "S3" "S4"
    32 32 48 48 64 64 okEnv_good]
  exact ⟨rfl, by decide⟩

/-- C2 (amended): when a stage fails to compile, `compile_shader` reports
through `error_callback`, which prints the full compiler diagnostic log and
aborts the process via `assert(false)` (non-zero exit status), so a
compilation failure is never silently skipped; however the report is only
"Error: " followed by the log text, so it does not itself name the failing
stage. -/
theorem C2_compile_failure_fatal (env : Env) (st : St) (stage : Stage)
    (source : String)
    (h : env.compileOk stage (stageDefine stage ++ source) = false) :
    (compile_shader env st stage source).isFatal = true ∧
    (compile_shader env st stage source).trace =
      [.compiled stage (stageDefine stage ++ source) st.counter,
       .printErr ("Error: " ++
         env.compileLog stage (stageDefine stage ++ source))] := by
  simp [compile_shader, h, Run.isFatal]

/-- Witness for C2: a concrete failing vertex-stage compile is fatal and
its trace carries the full log. -/
theorem C2_compile_failure_fatal_witness :
    (compile_shader badCompileEnv St.init .vertex "x").isFatal = true ∧
    (compile_shader badCompileEnv St.init .vertex "x").trace =
      [.compiled .vertex (stageDefine .vertex ++ "x") St.init.counter,
       .printErr ("Error: " ++
         badCompileEnv.compileLog .vertex (stageDefine .vertex ++ "x"))] :=
  C2_compile_failure_fatal badCompileEnv St.init .vertex "x" rfl

/-- C2 counterexample: the error output of a vertex-stage compile failure
and of a fragment-stage compile failure with the same log are the same
single line, carrying no stage information, so the claim that "the
reported error names the failing stage" is false — the report is
"Error: " followed by the raw log text only (main.cpp lines 72-76 print
only the description argument). -/
theorem C2_counterexample :
    (compile_shader badCompileEnv St.init .vertex "x").trace.filter
        Ev.isPrintErr =
      [.printErr
        "Error: 0:1(1): error: syntax error, unexpected NEW_IDENTIFIER"] ∧
    (compile_shader badCompileEnv St.init .fragment "x").trace.filter
        Ev.isPrintErr =
      [.printErr
        "Error: 0:1(1): error: syntax error, unexpected NEW_IDENTIFIER"] :=
  ⟨rfl, rfl⟩

/-- C3 (amended): a digit key k in 1..4 pressed always sets the selection
to k; the resize to (image_width * k, image_height * k) is issued whenever
the modifier bits differ from exactly `GLFW_MOD_SHIFT`, and suppressed
(window size unchanged) exactly when the modifier bits equal
`GLFW_MOD_SHIFT` alone — not whenever "a modifier key is held". -/
theorem C3_digit_key (image_width image_height : Nat) (k : Nat) (mods : Int)
    (s : WinSt) (hk1 : 1 ≤ k) (hk2 : k ≤ 4) :
    ((key_callback image_width image_height (GLFW_KEY_0 + k) GLFW_PRESS mods
        s).1).image_scale = k ∧
    (mods ≠ GLFW_MOD_SHIFT →
      (key_callback image_width image_height (GLFW_KEY_0 + k) GLFW_PRESS mods
          s).2 = some (image_width * k, image_height * k) ∧
      ((key_callback image_width image_height (GLFW_KEY_0 + k) GLFW_PRESS mods
          s).1).winW = image_width * k ∧
      ((key_callback image_width image_height (GLFW_KEY_0 + k) GLFW_PRESS mods
          s).1).winH = image_height * k) ∧
    (mods = GLFW_MOD_SHIFT →
      (key_callback image_width image_height (GLFW_KEY_0 + k) GLFW_PRESS mods
          s).2 = none ∧
      ((key_callback image_width image_height (GLFW_KEY_0 + k) GLFW_PRESS mods
          s).1).winW = s.winW ∧
      ((key_callback image_width image_height (GLFW_KEY_0 + k) GLFW_PRESS mods
          s).1).winH = s.winH) := by
  simp only [key_callback, GLFW_KEY_0, GLFW_KEY_1, GLFW_KEY_4, GLFW_KEY_ESCAPE,
    GLFW_PRESS, GLFW_MOD_SHIFT]
  split_ifs with hesc hdig hmods <;> simp_all <;> omega

/-- Witness for C3 (amended): digit 2 with no modifier selects slot 2 and
resizes to 32 x 32 from a 16 x 16 source image. -/
theorem C3_digit_key_witness :
    ((key_callback 16 16 (GLFW_KEY_0 + 2) GLFW_PRESS 0
        ⟨2, 32, 32, false⟩).1).image_scale = 2 ∧
    ((0 : Int) ≠ GLFW_MOD_SHIFT →
      (key_callback 16 16 (GLFW_KEY_0 + 2) GLFW_PRESS 0
          ⟨2, 32, 32, false⟩).2 = some (16 * 2, 16 * 2) ∧
      ((key_callback 16 16 (GLFW_KEY_0 + 2) GLFW_PRESS 0
          ⟨2, 32, 32, false⟩).1).winW = 16 * 2 ∧
      ((key_callback 16 16 (GLFW_KEY_0 + 2) GLFW_PRESS 0
          ⟨2, 32, 32, false⟩).1).winH = 16 * 2) ∧
    ((0 : Int) = GLFW_MOD_SHIFT →
      (key_callback 16 16 (GLFW_KEY_0 + 2) GLFW_PRESS 0
          ⟨2, 32, 32, false⟩).2 = none ∧
      ((key_callback 16 16 (GLFW_KEY_0 + 2) GLFW_PRESS 0
          ⟨2, 32, 32, false⟩).1).winW = (⟨2, 32, 32, false⟩ : WinSt).winW ∧
      ((key_callback 16 16 (GLFW_KEY_0 + 2) GLFW_PRESS 0
          ⟨2, 32, 32, false⟩).1).winH = (⟨2, 32, 32, false⟩ : WinSt).winH) :=
  C3_digit_key 16 16 2 0 ⟨2, 32, 32, false⟩ (by decide) (by decide)

/-- C3 counterexample: pressing digit 3 while holding Control (modifier
bits `GLFW_MOD_CONTROL`, a held modifier key) still resizes the window
(from 32 x 32 to 48 x 48), so the claim that any held modifier leaves the
window size unchanged is false: only exactly Shift suppresses the
resize (main.cpp line 87 tests mods != GLFW_MOD_SHIFT). -/
theorem C3_counterexample :
    key_callback 16 16 GLFW_KEY_3 GLFW_PRESS GLFW_MOD_CONTROL
        ⟨2, 32, 32, false⟩ =
      (⟨3, 48, 48, false⟩, some (48, 48)) := by
  decide

/-- C10: the resize accompanying a digit-key press k in 1..4 is suppressed
exactly when the modifier bits equal `GLFW_MOD_SHIFT` alone; with no
modifier, or with Shift combined with another modifier, the resize to
(image_width * k, image_height * k) is issued; the selection becomes k in
every case. -/
theorem C10_shift_suppression_exact (image_width image_height : Nat) (k : Nat)
    (mods : Int) (s : WinSt) (hk1 : 1 ≤ k) (hk2 : k ≤ 4) :
    ((key_callback image_width image_height (GLFW_KEY_0 + k) GLFW_PRESS mods
        s).1).image_scale = k ∧
    ((key_callback image_width image_height (GLFW_KEY_0 + k) GLFW_PRESS mods
        s).2 = none ↔ mods = GLFW_MOD_SHIFT) ∧
    (mods ≠ GLFW_MOD_SHIFT →
      (key_callback image_width image_height (GLFW_KEY_0 + k) GLFW_PRESS mods
          s).2 = some (image_width * k, image_height * k)) := by
  simp only [key_callback, GLFW_KEY_0, GLFW_KEY_1, GLFW_KEY_4, GLFW_KEY_ESCAPE,
    GLFW_PRESS, GLFW_MOD_SHIFT]
  split_ifs with hesc hdig hmods <;> simp_all <;> omega

/-- Witness for C10: digit 3 held with Shift+Control (modifier bits 3) is
not suppressed — the resize request is still issued. -/
theorem C10_shift_suppression_exact_witness :
    ((key_callback 16 16 (GLFW_KEY_0 + 3) GLFW_PRESS 3
        ⟨2, 32, 32, false⟩).1).image_scale = 3 ∧
    ((key_callback 16 16 (GLFW_KEY_0 + 3) GLFW_PRESS 3
        ⟨2, 32, 32, false⟩).2 = none ↔ (3 : Int) = GLFW_MOD_SHIFT) ∧
    ((3 : Int) ≠ GLFW_MOD_SHIFT →
      (key_callback 16 16 (GLFW_KEY_0 + 3) GLFW_PRESS 3
          ⟨2, 32, 32, false⟩).2 = some (16 * 3, 16 * 3)) :=
  C10_shift_suppression_exact 16 16 3 3 ⟨2, 32, 32, false⟩ (by decide)
    (by decide)

/-- C4: `image_scale` starts at 2 and every reachable state after any
sequence of key events keeps it in 1..4, strictly below the length 5 of
both registry sequences, so `programs[image_scale]` and
`lut_textures[image_scale]` are always in bounds; moreover any key event
that is not a press of a digit key 1..4 leaves the selection unchanged. -/
theorem C4_selection_in_bounds (env : Env) (a0 base img : String) (W H : Nat)
    (s2 s3 s4 : String) (w2 h2 w3 h3 w4 h4 : Nat)
    (hG : GoodBoot env base img W H s2 s3 s4 w2 h2 w3 h3 w4 h4)
    (iw ih : Nat) (evs : List KeyEv) :
    1 ≤ (replayKeys iw ih (initialWinSt iw ih) evs).image_scale ∧
    (replayKeys iw ih (initialWinSt iw ih) evs).image_scale <
      (startup env [a0, base, img]).bootOf.programs.length ∧
    (replayKeys iw ih (initialWinSt iw ih) evs).image_scale <
      (startup env [a0, base, img]).bootOf.lut_textures.length ∧
    (∀ key action mods t,
      ¬ (GLFW_KEY_1 ≤ key ∧ key ≤ GLFW_KEY_4 ∧ action = GLFW_PRESS) →
      ((key_callback iw ih key action mods t).1).image_scale =
        t.image_scale) := by
  have hb := replayKeys_scale_bound iw ih evs (initialWinSt iw ih)
    (by simp [initialWinSt]) (by simp [initialWinSt])
  rw [startup_good env a0 base img W H s2 s3 s4 w2 h2 w3 h3 w4 h4 hG]
  simp only [Run.bootOf, goodBoot]
  refine ⟨hb.1, ?_, ?_, ?_⟩
  · simp only [List.length_cons, List.length_nil]; omega
  · simp only [List.length_cons, List.length_nil]; omega
  · intro key action mods t hno
    simp only [key_callback]
    split_ifs <;> simp_all

/-- Witness for C4: the bounds hold at the concrete environment after
pressing digit 3. -/
theorem C4_selection_in_bounds_witness :
    1 ≤ (replayKeys 16 16 (initialWinSt 16 16)
        [⟨GLFW_KEY_3, GLFW_PRESS, 0⟩]).image_scale ∧
    (replayKeys 16 16 (initialWinSt 16 16)
        [⟨GLFW_KEY_3, GLFW_PRESS, 0⟩]).image_scale <
      (startup okEnv ["app", "/a", "/a/img.png"]).bootOf.programs.length ∧
    (replayKeys 16 16 (initialWinSt 16 16)
        [⟨GLFW_KEY_3, GLFW_PRESS, 0⟩]).image_scale <
      (startup okEnv ["app", "/a", "/a/img.png"]).bootOf.lut_textures.length ∧
    (∀ key action mods t,
      ¬ (GLFW_KEY_1 ≤ key ∧ key ≤ GLFW_KEY_4 ∧ action = GLFW_PRESS) →
      ((key_callback 16 16 key action mods t).1).image_scale =
        t.image_scale) :=
  C4_selection_in_bounds okEnv "app" "/a" "/a/img.png" 16 16 "S2" "S3" "S4"
    32 32 48 48 64 64 okEnv_good 16 16 [⟨GLFW_KEY_3, GLFW_PRESS, 0⟩]

/-- C5: each frame of the render loop sets the viewport to the queried
framebuffer size, clears the color buffer, activates the selected slot's
program, and issues exactly one indexed draw of the quad's six indices
(two triangles) before the buffer swap; during the draw the source image
texture is still the one bound at sampler unit `GL_TEXTURE0` (it was bound
there once at startup and the frame only rebinds unit `GL_TEXTURE1`),
while unit `GL_TEXTURE1` holds the selected slot's lookup-texture name —
which is the NULL name 0, meaning no lookup texture is bound, exactly for
the passthrough slot 1, and a real lookup texture for slots 2..4. -/
theorem C5_render_frame (env : Env) (a0 base img : String) (W H : Nat)
    (s2 s3 s4 : String) (w2 h2 w3 h3 w4 h4 : Nat)
    (hG : GoodBoot env base img W H s2 s3 s4 w2 h2 w3 h3 w4 h4)
    (fbW fbH scale : Nat) (hs1 : 1 ≤ scale) (hs2 : scale ≤ 4) :
    renderFrame fbW fbH scale (startup env [a0, base, img]).bootOf.programs
        (startup env [a0, base, img]).bootOf.lut_textures =
      [Cmd.viewport 0 0 fbW fbH, Cmd.clear,
       Cmd.useProgram
         ((startup env [a0, base, img]).bootOf.programs.getD scale 0),
       Cmd.activeTexture GL_TEXTURE1,
       Cmd.bindTexture
         ((startup env [a0, base, img]).bootOf.lut_textures.getD scale 0),
       Cmd.drawElements GL_TRIANGLES 6,
       Cmd.swapBuffers, Cmd.pollEvents] ∧
    (renderFrame fbW fbH scale (startup env [a0, base, img]).bootOf.programs
      (startup env [a0, base, img]).bootOf.lut_textures).countP Cmd.isDraw
      = 1 ∧
    getA (runCmds ((startup env [a0, base, img]).stOf.active,
        (startup env [a0, base, img]).stOf.bound)
        (renderFrame fbW fbH scale
          (startup env [a0, base, img]).bootOf.programs
          (startup env [a0, base, img]).bootOf.lut_textures)).2 GL_TEXTURE0 =
      some (startup env [a0, base, img]).bootOf.sourceTexture ∧
    getA (runCmds ((startup env [a0, base, img]).stOf.active,
        (startup env [a0, base, img]).stOf.bound)
        (renderFrame fbW fbH scale
          (startup env [a0, base, img]).bootOf.programs
          (startup env [a0, base, img]).bootOf.lut_textures)).2 GL_TEXTURE1 =
      some
        ((startup env [a0, base, img]).bootOf.lut_textures.getD scale 0) ∧
    ((startup env [a0, base, img]).bootOf.lut_textures.getD scale 0 = 0 ↔
      scale = 1) := by
  rw [startup_good env a0 base img W H s2 s3 s4 w2 h2 w3 h3 w4 h4 hG]
  simp only [Run.bootOf, Run.stOf, goodBoot, goodSt]
  refine ⟨rfl, rfl, rfl, rfl, ?_⟩
  interval_cases scale <;> simp

/-- Witness for C5: the frame shape and bindings at the concrete
environment with slot 3 selected and a 640 x 480 framebuffer. -/
theorem C5_render_frame_witness :
    renderFrame 640 480 3
        (startup okEnv ["app", "/a", "/a/img.png"]).bootOf.programs
        (startup okEnv ["app", "/a", "/a/img.png"]).bootOf.lut_textures =
      [Cmd.viewport 0 0 640 480, Cmd.clear,
       Cmd.useProgram
         ((startup okEnv ["app", "/a", "/a/img.png"]).bootOf.programs.getD 3 0),
       Cmd.activeTexture GL_TEXTURE1,
       Cmd.bindTexture
         ((startup okEnv
            ["app", "/a", "/a/img.png"]).bootOf.lut_textures.getD 3 0),
       Cmd.drawElements GL_TRIANGLES 6,
       Cmd.swapBuffers, Cmd.pollEvents] ∧
    (renderFrame 640 480 3
      (startup okEnv ["app", "/a", "/a/img.png"]).bootOf.programs
      (startup okEnv ["app", "/a", "/a/img.png"]).bootOf.lut_textures).countP
      Cmd.isDraw = 1 ∧
    getA (runCmds ((startup okEnv ["app", "/a", "/a/img.png"]).stOf.active,
        (startup okEnv ["app", "/a", "/a/img.png"]).stOf.bound)
        (renderFrame 640 480 3
          (startup okEnv ["app", "/a", "/a/img.png"]).bootOf.programs
          (startup okEnv
            ["app", "/a", "/a/img.png"]).bootOf.lut_textures)).2 GL_TEXTURE0 =
      some (startup okEnv ["app", "/a", "/a/img.png"]).bootOf.sourceTexture ∧
    getA (runCmds ((startup okEnv ["app", "/a", "/a/img.png"]).stOf.active,
        (startup okEnv ["app", "/a", "/a/img.png"]).stOf.bound)
        (renderFrame 640 480 3
          (startup okEnv ["app", "/a", "/a/img.png"]).bootOf.programs
          (startup okEnv
            ["app", "/a", "/a/img.png"]).bootOf.lut_textures)).2 GL_TEXTURE1 =
      some ((startup okEnv
        ["app", "/a", "/a/img.png"]).bootOf.lut_textures.getD 3 0) ∧
    ((startup okEnv ["app", "/a", "/a/img.png"]).bootOf.lut_textures.getD 3 0
        = 0 ↔ (3 : Nat) = 1) :=
  C5_render_frame okEnv "app" "/a" "/a/img.png" 16 16 "S2" "S3" "S4"
    32 32 48 48 64 64 okEnv_good 640 480 3 (by decide) (by decide)

/-- C6: the default scale is 2 (`image_scale` is initialised to 2 at
main.cpp line 70): setup's final event, before the render loop starts, is
the resize to image_width * 2 by image_height * 2, and the first rendered
frame activates the program of slot 2 (which is a real program). -/
theorem C6_default_scale_two (env : Env) (a0 base img : String) (W H : Nat)
    (s2 s3 s4 : String) (w2 h2 w3 h3 w4 h4 : Nat)
    (hG : GoodBoot env base img W H s2 s3 s4 w2 h2 w3 h3 w4 h4)
    (fbW fbH : Nat) :
    (startup env [a0, base, img]).bootOf.image_scale = 2 ∧
    (startup env [a0, base, img]).trace.getLast? =
      some (Ev.setWindowSize (W * 2) (H * 2)) ∧
    Cmd.useProgram
        ((startup env [a0, base, img]).bootOf.programs.getD 2 0) ∈
      renderFrame fbW fbH (startup env [a0, base, img]).bootOf.image_scale
        (startup env [a0, base, img]).bootOf.programs
        (startup env [a0, base, img]).bootOf.lut_textures ∧
    (startup env [a0, base, img]).bootOf.programs.getD 2 0 ≠ 0 := by
  rw [startup_good env a0 base img W H s2 s3 s4 w2 h2 w3 h3 w4 h4 hG]
  refine ⟨rfl, rfl, ?_, by simp [Run.bootOf, goodBoot]⟩
  simp [renderFrame, Run.bootOf, goodBoot]

/-- Witness for C6 at the concrete environment: the 16 x 16 image leads to
a 32 x 32 resize and a first frame on slot 2. -/
theorem C6_default_scale_two_witness :
    (startup okEnv ["app", "/a", "/a/img.png"]).bootOf.image_scale = 2 ∧
    (startup okEnv ["app", "/a", "/a/img.png"]).trace.getLast? =
      some (Ev.setWindowSize (16 * 2) (16 * 2)) ∧
    Cmd.useProgram
        ((startup okEnv ["app", "/a", "/a/img.png"]).bootOf.programs.getD 2 0) ∈
      renderFrame 640 480
        (startup okEnv ["app", "/a", "/a/img.png"]).bootOf.image_scale
        (startup okEnv ["app", "/a", "/a/img.png"]).bootOf.programs
        (startup okEnv ["app", "/a", "/a/img.png"]).bootOf.lut_textures ∧
    (startup okEnv ["app", "/a", "/a/img.png"]).bootOf.programs.getD 2 0 ≠ 0 :=
  C6_default_scale_two okEnv "app" "/a" "/a/img.png" 16 16 "S2" "S3" "S4"
    32 32 48 48 64 64 okEnv_good 640 480

/-- C7: over the whole setup trace, the `TextureSize` uniform is written
exactly three times — once for each non-passthrough slot program — and
always with the source image's width and height (never the window or
framebuffer size, which setup never feeds to a uniform); and for each of
those programs the sampler uniforms written are exactly `Texture` = unit 0
and `LUT` = unit 1. -/
theorem C7_texture_size_uniform (env : Env) (a0 base img : String)
    (W H : Nat) (s2 s3 s4 : String) (w2 h2 w3 h3 w4 h4 : Nat)
    (hG : GoodBoot env base img W H s2 s3 s4 w2 h2 w3 h3 w4 h4) :
    (startup env [a0, base, img]).trace.filter Ev.isTexSizeSet =
      [.uniform2f ((startup env [a0, base, img]).bootOf.programs.getD 2 0)
         "TextureSize" W H,
       .uniform2f ((startup env [a0, base, img]).bootOf.programs.getD 3 0)
         "TextureSize" W H,
       .uniform2f ((startup env [a0, base, img]).bootOf.programs.getD 4 0)
         "TextureSize" W H] ∧
    (startup env [a0, base, img]).trace.filter
        (Ev.isSamplerSetOf
          ((startup env [a0, base, img]).bootOf.programs.getD 2 0)) =
      [.uniform1i ((startup env [a0, base, img]).bootOf.programs.getD 2 0)
         "Texture" 0,
       .uniform1i ((startup env [a0, base, img]).bootOf.programs.getD 2 0)
         "LUT" 1] ∧
    (startup env [a0, base, img]).trace.filter
        (Ev.isSamplerSetOf
          ((startup env [a0, base, img]).bootOf.programs.getD 3 0)) =
      [.uniform1i ((startup env [a0, base, img]).bootOf.programs.getD 3 0)
         "Texture" 0,
       .uniform1i ((startup env [a0, base, img]).bootOf.programs.getD 3 0)
         "LUT" 1] ∧
    (startup env [a0, base, img]).trace.filter
        (Ev.isSamplerSetOf
          ((startup env [a0, base, img]).bootOf.programs.getD 4 0)) =
      [.uniform1i ((startup env [a0, base, img]).bootOf.programs.getD 4 0)
         "Texture" 0,
       .uniform1i ((startup env [a0, base, img]).bootOf.programs.getD 4 0)
         "LUT" 1] := by
  rw [startup_good env a0 base img W H s2 s3 s4 w2 h2 w3 h3 w4 h4 hG]
  simp only [Run.bootOf, goodBoot]
  exact ⟨rfl, rfl, rfl, rfl⟩

/-- Witness for C7 at the concrete environment. -/
theorem C7_texture_size_uniform_witness :
    (startup okEnv ["app", "/a", "/a/img.png"]).trace.filter Ev.isTexSizeSet =
      [.uniform2f
         ((startup okEnv ["app", "/a", "/a/img.png"]).bootOf.programs.getD 2 0)
         "TextureSize" 16 16,
       .uniform2f
         ((startup okEnv ["app", "/a", "/a/img.png"]).bootOf.programs.getD 3 0)
         "TextureSize" 16 16,
       .uniform2f
         ((startup okEnv ["app", "/a", "/a/img.png"]).bootOf.programs.getD 4 0)
         "TextureSize" 16 16] ∧
    (startup okEnv ["app", "/a", "/a/img.png"]).trace.filter
        (Ev.isSamplerSetOf
          ((startup okEnv
            ["app", "/a", "/a/img.png"]).bootOf.programs.getD 2 0)) =
      [.uniform1i
         ((startup okEnv ["app", "/a", "/a/img.png"]).bootOf.programs.getD 2 0)
         "Texture" 0,
       .uniform1i
         ((startup okEnv ["app", "/a", "/a/img.png"]).bootOf.programs.getD 2 0)
         "LUT" 1] ∧
    (startup okEnv ["app", "/a", "/a/img.png"]).trace.filter
        (Ev.isSamplerSetOf
          ((startup okEnv
            ["app", "/a", "/a/img.png"]).bootOf.programs.getD 3 0)) =
      [.uniform1i
         ((startup okEnv ["app", "/a", "/a/img.png"]).bootOf.programs.getD 3 0)
         "Texture" 0,
       .uniform1i
         ((startup okEnv ["app", "/a", "/a/img.png"]).bootOf.programs.getD 3 0)
         "LUT" 1] ∧
    (startup okEnv ["app", "/a", "/a/img.png"]).trace.filter
        (Ev.isSamplerSetOf
          ((startup okEnv
            ["app", "/a", "/a/img.png"]).bootOf.programs.getD 4 0)) =
      [.uniform1i
         ((startup okEnv ["app", "/a", "/a/img.png"]).bootOf.programs.getD 4 0)
         "Texture" 0,
       .uniform1i
         ((startup okEnv ["app", "/a", "/a/img.png"]).bootOf.programs.getD 4 0)
         "LUT" 1] :=
  C7_texture_size_uniform okEnv "app" "/a" "/a/img.png" 16 16 "S2" "S3" "S4"
    32 32 48 48 64 64 okEnv_good

/-- C8: with fewer than two argv entries the program prints the usage line
and exits with failure status having done nothing else (the trace is
exactly the usage message, so no resource was touched); with one positional
argument the first file handed to the image decoder is the bundled sample
image under the asset directory; with a second positional argument it is
that argument instead. -/
theorem C8_cli_arguments (env : Env) (a0 base img : String)
    (hInit : env.glfwInitOk = true) (hWin : env.createWindowOk = true) :
    (startup env [a0]).isFatal = true ∧
    (startup env [a0]).trace = [Ev.printUsage] ∧
    (decodedPaths (startup env [a0, base]).trace).head? =
      some (base ++ "/sample/pixelart0.png") ∧
    (decodedPaths (startup env [a0, base, img]).trace).head? = some img := by
  refine ⟨rfl, rfl, ?_, ?_⟩
  · cases hp : env.png (base ++ "/sample/pixelart0.png") with
    | error e =>
        obtain ⟨ec, et⟩ := e
        simp [startup, hInit, hWin, load_texture, hp, decodedPaths,
          sample_image]
    | ok wh =>
        obtain ⟨w, h⟩ := wh
        simp [startup, hInit, hWin, load_texture, hp, decodedPaths,
          sample_image]
  · cases hp : env.png img with
    | error e =>
        obtain ⟨ec, et⟩ := e
        simp [startup, hInit, hWin, load_texture, hp, decodedPaths]
    | ok wh =>
        obtain ⟨w, h⟩ := wh
        simp [startup, hInit, hWin, load_texture, hp, decodedPaths]

/-- Witness for C8 at the concrete environment. -/
theorem C8_cli_arguments_witness :
    (startup okEnv ["app"]).isFatal = true ∧
    (startup okEnv ["app"]).trace = [Ev.printUsage] ∧
    (decodedPaths (startup okEnv ["app", "/a"]).trace).head? =
      some ("/a" ++ "/sample/pixelart0.png") ∧
    (decodedPaths (startup okEnv ["app", "/a", "/a/img.png"]).trace).head? =
      some "/a/img.png" :=
  C8_cli_arguments okEnv "app" "/a" "/a/img.png" rfl rfl

/-- C9 (amended): with the scale-4 lookup texture missing, the process
exits with failure status and the last thing it reports is the decoder's
error diagnostic — but this happens AFTER the window was created and
shown: window creation (main.cpp line 221) is the first observable event
of the run, preceding all asset loading. -/
theorem C9_lut_failure_after_window (env : Env) (a0 base img : String)
    (W H : Nat) (s2 s3 s4 : String) (w2 h2 w3 h3 : Nat) (ecode : Nat)
    (etext : String)
    (h : Lut4Missing env base img W H s2 s3 s4 w2 h2 w3 h3 ecode etext) :
    (startup env [a0, base, img]).isFatal = true ∧
    (startup env [a0, base, img]).trace.head? =
      some (Ev.createWindow 640 480 "HQx Sample") ∧
    (startup env [a0, base, img]).trace.getLast? =
      some (Ev.printErr ("Error: " ++ etext)) ∧
    Ev.decodePng (base ++ "/resources/hq4x.png") ∈
      (startup env [a0, base, img]).trace := by
  rw [startup_lut4 env a0 base img W H s2 s3 s4 w2 h2 w3 h3 ecode etext h]
  refine ⟨rfl, rfl, rfl, ?_⟩
  simp [lut4FailTrace]

/-- Witness for C9 (amended) at the concrete environment `lut4Env`. -/
theorem C9_lut_failure_after_window_witness :
    (startup lut4Env ["app", "/a", "/a/img.png"]).isFatal = true ∧
    (startup lut4Env ["app", "/a", "/a/img.png"]).trace.head? =
      some (Ev.createWindow 640 480 "HQx Sample") ∧
    (startup lut4Env ["app", "/a", "/a/img.png"]).trace.getLast? =
      some (Ev.printErr ("Error: " ++ "failed to open file for reading")) ∧
    Ev.decodePng ("/a" ++ "/resources/hq4x.png") ∈
      (startup lut4Env ["app", "/a", "/a/img.png"]).trace :=
  C9_lut_failure_after_window lut4Env "app" "/a" "/a/img.png" 16 16
    "S2" "S3" "S4" 32 32 48 48 78 "failed to open file for reading"
    lut4Env_missing

/-- C9 counterexample: in a concrete run whose scale-4 lookup texture is
missing, the process does exit with failure — but the window-creation
event is the very first event of the trace, so the exit does NOT happen
before a window is shown: main.cpp creates the window at line 221, before
any asset is loaded. -/
theorem C9_counterexample :
    (startup lut4Env ["app", "/a", "/a/img.png"]).isFatal = true ∧
    (startup lut4Env ["app", "/a", "/a/img.png"]).trace.head? =
      some (Ev.createWindow 640 480 "HQx Sample") := by
  rw [startup_lut4 lut4Env "app" "/a" "/a/img.png" 16 16 "S2" "S3" "S4"
    32 32 48 48 78 "failed to open file for reading" lut4Env_missing]
  exact ⟨rfl, rfl⟩

end HqxSample
